import Mathlib

/-!
Shallow embedding of the reconciliation core of `svn_cmd_tool`
(`svn_checkout_control.py`, `svn_export_control.py`, `svn_checkout_manager.py`,
`svn_cmd.py`), together with theorems settling the specification claims.

External subversion commands (`svn checkout/export/update/list`) and filesystem
mutations are modelled as an `Effect` trace; the filesystem facts each control
inspects (`Path.exists`, `is_svn_working_copy`, parent-directory existence) are
an input `FsView`; the files found by `set_readonly`'s recursive walk are an
input list of `FileEntry`.  A method that can raise returns its trace of
effects together with an optional error (`RunResult`), since Python side
effects performed before a raise persist.
-/

namespace SvnCmdTool

/-- Python values that flow into the constructor calls of this code base. -/
inductive PyVal where
  | str (s : String)
  | bool (b : Bool)
  deriving DecidableEq, Repr

/-- Observable side effects of the reconciliation layer: directory creation,
the four subversion commands, and the per-file chmod of `set_readonly`
(either succeeding, or failing with a logged-and-skipped `OSError`). -/
inductive Effect where
  | mkdirParentsOf (target : String)
  | svnCheckout (url target : String)
  | svnUpdate (target : String)
  | svnExport (url target : String) (force : Bool)
  | chmod (file : String)
  | chmodFailedLogged (file : String)
  deriving DecidableEq, Repr

/-- The exceptions raised by the code: the `TypeError` of a constructor call
with the wrong arity, the config-validation `Exception`s of
`_create_control_from_config` / `load_from_dict`, the not-a-working-copy
`Exception` of `SvnCheckoutControl.update`, the not-found `Exception` of
`update_by_name`, the wrappers those two managers put around inner errors,
and the aggregate `Exception` of `SvnCheckoutManager.update` (which carries
the success count, the failure count and the first error, exactly as the
source's `error_summary` does). -/
inductive PyError where
  | typeError
  | configNotADict
  | missingType
  | missingName
  | missingTargetPath
  | missingRepositoryUrl
  | emptyParentListing (parent_url : String)
  | missingRepoOrParent
  | unsupportedType (t : String)
  | missingControlsKey
  | controlsNotAList
  | notWorkingCopy (target : String)
  | notFound (name : String)
  | executionError
  | wrappedAtIndex (k : Nat) (e : PyError)
  | wrappedByName (name : String) (e : PyError)
  | aggregate (successful failed : Nat) (firstError : PyError)
  deriving DecidableEq, Repr

/-- Result of running a method that mutates the world and may raise: the trace
of effects it performed, and the exception it raised, if any. -/
structure RunResult where
  effects : List Effect
  error? : Option PyError
  deriving DecidableEq, Repr

/-- The filesystem facts a control's `update` inspects about its
`target_path`: `Path(target_path).exists()`, `is_svn_working_copy`
(`.svn` subdirectory exists and is a directory), whether
`Path(target_path).parent` exists, and whether the parent equals the path
itself (as for a filesystem root). -/
structure FsView where
  targetExists : Bool
  isWorkingCopy : Bool
  parentExists : Bool
  parentIsSelf : Bool
  deriving DecidableEq, Repr

/-- One entry yielded by `Path(path).rglob('*')` in `set_readonly`:
its path, whether `is_file()` holds, and whether `chmod(0o444)` on it
raises `OSError`. -/
structure FileEntry where
  path : String
  isFile : Bool
  chmodRaises : Bool
  deriving DecidableEq, Repr

/-- `svn_cmd.set_readonly` (svn_cmd.py lines 136-154): walk every entry under
the target; for each regular file attempt `chmod(0o444)`; an `OSError` is
logged as a warning and the walk continues. -/
def set_readonly (entries : List FileEntry) : List Effect :=
  entries.flatMap fun e =>
    if e.isFile then
      if e.chmodRaises then [Effect.chmodFailedLogged e.path]
      else [Effect.chmod e.path]
    else []

/-- `SvnCheckoutControl` (svn_checkout_control.py lines 16-27): name,
repository URL and checkout target. -/
structure SvnCheckoutControl where
  name : String
  repository_url : String
  target_path : String
  deriving DecidableEq, Repr

/-- `SvnExportControl` (svn_export_control.py lines 16-29).  Its `__init__`
declares the parameters `repository_url`, `target_path`, `force_overwrite`
only — the class stores no `name` attribute. -/
structure SvnExportControl where
  repository_url : String
  target_path : String
  force_overwrite : Bool
  deriving DecidableEq, Repr

/-- The Python call protocol for
`SvnExportControl.__init__(self, repository_url, target_path, force_overwrite=False)`:
two positional arguments bind with the default `force_overwrite = False`,
three bind all parameters, and any other argument list (in particular the
four-argument call made by the factory) raises `TypeError`. -/
def svnExportControlNew : List PyVal → Except PyError SvnExportControl
  | [PyVal.str repository_url, PyVal.str target_path] =>
      Except.ok ⟨repository_url, target_path, false⟩
  | [PyVal.str repository_url, PyVal.str target_path, PyVal.bool force_overwrite] =>
      Except.ok ⟨repository_url, target_path, force_overwrite⟩
  | _ => Except.error PyError.typeError

/-- `SvnCheckoutControl.update` (svn_checkout_control.py lines 31-60): if the
target exists and is a working copy, run `svn update`; if it exists and is
not, raise; otherwise create the missing parent directories (only when the
parent is distinct from the path and absent) and run `svn checkout`. -/
def SvnCheckoutControl.update (c : SvnCheckoutControl) (fs : FsView) : RunResult :=
  if fs.targetExists then
    if fs.isWorkingCopy then
      ⟨[Effect.svnUpdate c.target_path], none⟩
    else
      ⟨[], some (PyError.notWorkingCopy c.target_path)⟩
  else
    let mkdirs :=
      if fs.parentIsSelf = false ∧ fs.parentExists = false then
        [Effect.mkdirParentsOf c.target_path]
      else []
    ⟨mkdirs ++ [Effect.svnCheckout c.repository_url c.target_path], none⟩

/-- `SvnExportControl.update` (svn_export_control.py lines 31-61): if the
target exists and `force_overwrite` is false, return without doing anything;
otherwise (creating missing parent directories first when the target is
absent) run `svn export` and then `set_readonly` over the exported tree. -/
def SvnExportControl.update (c : SvnExportControl) (fs : FsView)
    (entries : List FileEntry) : RunResult :=
  if fs.targetExists then
    if c.force_overwrite then
      ⟨Effect.svnExport c.repository_url c.target_path c.force_overwrite ::
          set_readonly entries, none⟩
    else
      ⟨[], none⟩
  else
    let mkdirs :=
      if fs.parentIsSelf = false ∧ fs.parentExists = false then
        [Effect.mkdirParentsOf c.target_path]
      else []
    ⟨mkdirs ++ Effect.svnExport c.repository_url c.target_path c.force_overwrite ::
        set_readonly entries, none⟩

/-- A control held by the manager: either variant. -/
inductive Control where
  | checkout (c : SvnCheckoutControl)
  | export_ (c : SvnExportControl)
  deriving DecidableEq, Repr

/-- Python `hasattr(control, 'name')`: `SvnCheckoutControl` sets `self.name`;
`SvnExportControl` does not. -/
def Control.hasNameAttr : Control → Bool
  | Control.checkout _ => true
  | Control.export_ _ => false

/-- The value of `control.name` where the attribute exists. -/
def Control.getName : Control → Option String
  | Control.checkout c => some c.name
  | Control.export_ _ => none

/-- `SvnCheckoutManager` (svn_checkout_manager.py): its only state is the
ordered list `self.controls`. -/
structure SvnCheckoutManager where
  controls : List Control
  deriving DecidableEq, Repr

/-- `SvnCheckoutManager.appendControl` (lines 28-36): append to the list. -/
def SvnCheckoutManager.appendControl (m : SvnCheckoutManager) (c : Control) :
    SvnCheckoutManager :=
  ⟨m.controls ++ [c]⟩

/-- `SvnCheckoutManager.clear` (lines 204-209). -/
def SvnCheckoutManager.clear (_m : SvnCheckoutManager) : SvnCheckoutManager :=
  ⟨[]⟩

/-- `SvnCheckoutManager.count` (lines 276-283). -/
def SvnCheckoutManager.count (m : SvnCheckoutManager) : Nat :=
  m.controls.length

/-- `SvnCheckoutManager.get_control_by_name` (lines 211-224): first control
with a `name` attribute equal to the argument, else `None`. -/
def SvnCheckoutManager.get_control_by_name (m : SvnCheckoutManager)
    (name : String) : Option Control :=
  m.controls.find? fun c => c.hasNameAttr && (c.getName == some name)

/-- `SvnCheckoutManager.get_control_names` (lines 226-237): the names of the
controls that have a `name` attribute, in order. -/
def SvnCheckoutManager.get_control_names (m : SvnCheckoutManager) :
    List String :=
  m.controls.filterMap Control.getName

/-- `SvnCheckoutManager.has_control_name` (lines 239-249). -/
def SvnCheckoutManager.has_control_name (m : SvnCheckoutManager)
    (name : String) : Bool :=
  (m.get_control_by_name name).isSome

/-- The loop body of `SvnCheckoutManager.update` (lines 177-187), abstracted
over how each control's `update` runs (each control reads its own slice of
the filesystem): returns the success count, the concatenated effect trace,
and the `(control, error)` pairs collected in iteration order. -/
def updateGo (run : Control → RunResult) :
    List Control → Nat × List Effect × List (Control × PyError)
  | [] => (0, [], [])
  | c :: rest =>
    let r := run c
    let (s, effs, errs) := updateGo run rest
    match r.error? with
    | none => (s + 1, r.effects ++ effs, errs)
    | some e => (s, r.effects ++ effs, (c, e) :: errs)

/-- `SvnCheckoutManager.update` (lines 159-202): empty list is an early
return; otherwise every control is attempted in order, each failure caught
and recorded, and if any failure occurred an aggregate exception carrying
the success count, the failure count and the first recorded error is
raised after the full pass. -/
def SvnCheckoutManager.update (run : Control → RunResult)
    (m : SvnCheckoutManager) : SvnCheckoutManager × RunResult :=
  (m,
    if m.controls.isEmpty then ⟨[], none⟩
    else
      let (s, effs, errs) := updateGo run m.controls
      match errs with
      | [] => ⟨effs, none⟩
      | (_, e) :: _ => ⟨effs, some (PyError.aggregate s errs.length e)⟩)

/-- `SvnCheckoutManager.update_by_name` (lines 251-274): look the name up;
raise if absent; otherwise run that control's `update`, re-raising any
failure wrapped with context naming the control. -/
def SvnCheckoutManager.update_by_name (run : Control → RunResult)
    (m : SvnCheckoutManager) (name : String) :
    SvnCheckoutManager × RunResult :=
  (m,
    match m.get_control_by_name name with
    | none => ⟨[], some (PyError.notFound name)⟩
    | some c =>
      let r := run c
      match r.error? with
      | none => r
      | some e => ⟨r.effects, some (PyError.wrappedByName name e)⟩)

/-- A rule record as the factory reads it: `config.get(key)` yields `none`
for an absent key.  `parent_url?` is distinguished because the source tests
its key presence (`'parent_url' in config`) rather than its truthiness. -/
structure RuleRecord where
  type? : Option String
  name? : Option String
  target_path? : Option String
  repository_url? : Option String
  parent_url? : Option String
  force_overwrite? : Option Bool
  deriving DecidableEq, Repr

/-- A value appearing in the `controls` array: the factory first checks
`isinstance(config, dict)`. -/
inductive RuleValue where
  | notADict
  | dict (r : RuleRecord)
  deriving DecidableEq, Repr

/-- Python truthiness of `config.get(key)` for a string-valued key:
`if not v` rejects both an absent key and an empty string. -/
def getTruthy : Option String → Option String
  | none => none
  | some s => if s = "" then none else some s

/-- Python `s.rstrip('/')`: remove every trailing slash. -/
def rstripSlash (s : String) : String :=
  ((s.toList.reverse.dropWhile fun ch => ch = '/').reverse).asString

/-- Python `s.endswith('/')`: the string is non-empty and its last character
is a slash. -/
def endsWithSlash (s : String) : Bool :=
  match s.toList.getLast? with
  | some ch => ch = '/'
  | none => false

/-- Lines 140-147 of svn_checkout_manager.py: from a non-empty listing take
`directories[-1]`, strip its trailing slashes, and join it to `parent_url`,
adding a `'/'` separator only when `parent_url` does not already end in one.
`none` corresponds to the empty listing, where the source raises instead. -/
def resolveExportUrl (parent_url : String) (directories : List String) :
    Option String :=
  match directories.getLast? with
  | none => none
  | some d =>
    let last_directory := rstripSlash d
    some (if endsWithSlash parent_url then parent_url ++ last_directory
          else parent_url ++ "/" ++ last_directory)

/-- `SvnCheckoutManager._create_control_from_config` (lines 95-157),
abstracted over the `svn_list` command.  The source appends the control it
builds via `appendControl`; here the built control is returned and the
caller appends it.  Both export branches invoke the `SvnExportControl`
constructor with the four positional arguments
`(name, url, target_path, force_overwrite)`. -/
def _create_control_from_config (svn_list : String → List String) :
    RuleValue → Except PyError Control
  | RuleValue.notADict => Except.error PyError.configNotADict
  | RuleValue.dict config =>
    match getTruthy config.type? with
    | none => Except.error PyError.missingType
    | some control_type =>
      match getTruthy config.name? with
      | none => Except.error PyError.missingName
      | some name =>
        match getTruthy config.target_path? with
        | none => Except.error PyError.missingTargetPath
        | some target_path =>
          if control_type = "checkout" then
            match getTruthy config.repository_url? with
            | none => Except.error PyError.missingRepositoryUrl
            | some repository_url =>
              Except.ok (Control.checkout ⟨name, repository_url, target_path⟩)
          else if control_type = "export" then
            let force_overwrite := config.force_overwrite?.getD false
            match getTruthy config.repository_url? with
            | some repository_url =>
              (svnExportControlNew [PyVal.str name, PyVal.str repository_url,
                  PyVal.str target_path, PyVal.bool force_overwrite]).map
                Control.export_
            | none =>
              match config.parent_url? with
              | some parent_url =>
                match resolveExportUrl parent_url (svn_list parent_url) with
                | some export_url =>
                  (svnExportControlNew [PyVal.str name, PyVal.str export_url,
                      PyVal.str target_path, PyVal.bool force_overwrite]).map
                    Control.export_
                | none => Except.error (PyError.emptyParentListing parent_url)
              | none => Except.error PyError.missingRepoOrParent
          else Except.error (PyError.unsupportedType control_type)

/-- The value found under the top-level `controls` key: absent, present but
not a list, or a list of rule values. -/
inductive ControlsField where
  | absent
  | notAList
  | list (rules : List RuleValue)
  deriving DecidableEq, Repr

/-- The rule loop of `load_from_dict` (lines 86-91): build each rule in
order, appending each built control to the manager; the first failure is
wrapped with its 1-based position `i + 1` and raised, keeping the controls
appended so far. -/
def loadRulesFrom (svn_list : String → List String) (i : Nat)
    (m : SvnCheckoutManager) :
    List RuleValue → SvnCheckoutManager × Option PyError
  | [] => (m, none)
  | r :: rest =>
    match _create_control_from_config svn_list r with
    | Except.ok c => loadRulesFrom svn_list (i + 1) (m.appendControl c) rest
    | Except.error e => (m, some (PyError.wrappedAtIndex (i + 1) e))

/-- `SvnCheckoutManager.load_from_dict` (lines 67-93): the top-level
`controls` key must exist and hold a list before any rule is built; then the
rules are built in order. -/
def SvnCheckoutManager.load_from_dict (svn_list : String → List String)
    (m : SvnCheckoutManager) (config : ControlsField) :
    SvnCheckoutManager × Option PyError :=
  match config with
  | ControlsField.absent => (m, some PyError.missingControlsKey)
  | ControlsField.notAList => (m, some PyError.controlsNotAList)
  | ControlsField.list rules => loadRulesFrom svn_list 0 m rules

/-- The `(control, error)` pairs `SvnCheckoutManager.update` records, in
iteration order, when each control's `update` runs as `run` says. -/
def runFailures (run : Control → RunResult) (cs : List Control) :
    List (Control × PyError) :=
  cs.filterMap fun c => ((run c).error?).map fun e => (c, e)

/-- The number of controls whose `update` succeeds. -/
def runSuccessCount (run : Control → RunResult) (cs : List Control) : Nat :=
  (cs.filter fun c => ((run c).error?).isNone).length

/-- The successful payload of an `Except`, if any. -/
def okPart {ε α : Type} : Except ε α → Option α
  | Except.ok a => some a
  | Except.error _ => none

/-- A concrete runner where exactly the control named `"b"` fails: the
three-control scenario of the specification's testable property for
aggregation. -/
def failSecondRun : Control → RunResult := fun c =>
  match c with
  | Control.checkout cc =>
    if cc.name = "b" then ⟨[], some PyError.executionError⟩
    else ⟨[Effect.svnUpdate cc.target_path], none⟩
  | Control.export_ _ => ⟨[], none⟩

/-! Helper lemmas shared by the claim theorems. -/

theorem updateGo_spec (run : Control → RunResult) (cs : List Control) :
    updateGo run cs =
      (runSuccessCount run cs, cs.flatMap fun c => (run c).effects,
        runFailures run cs) := by
  induction cs with
  | nil => simp [updateGo, runSuccessCount, runFailures]
  | cons c rest ih =>
    simp only [updateGo, ih]
    cases h : (run c).error? with
    | none =>
      simp [runSuccessCount, runFailures, h, List.filter_cons, Nat.add_comm]
    | some e =>
      simp [runSuccessCount, runFailures, h, List.filter_cons]

theorem success_failure_split (run : Control → RunResult) (cs : List Control) :
    runSuccessCount run cs + (runFailures run cs).length = cs.length := by
  induction cs with
  | nil => simp [runSuccessCount, runFailures]
  | cons c rest ih =>
    simp only [runSuccessCount, runFailures] at ih ⊢
    cases h : (run c).error? with
    | none =>
      simp [List.filter_cons, List.filterMap_cons, h]
      omega
    | some e =>
      simp [List.filter_cons, List.filterMap_cons, h]
      omega

theorem find?_first_split {α : Type} (p : α → Bool) :
    ∀ (l : List α) (a : α), l.find? p = some a →
      ∃ pre post, l = pre ++ a :: post ∧ (∀ b ∈ pre, p b = false) ∧
        p a = true
  | [], a, h => by simp [List.find?] at h
  | x :: xs, a, h => by
    by_cases hx : p x = true
    · have hxa : x = a := by
        rw [List.find?_cons_of_pos _ hx] at h
        exact Option.some.inj h
      subst hxa
      exact ⟨[], xs, rfl, by simp, hx⟩
    · have hx' : p x = false := by
        cases hpx : p x with
        | false => rfl
        | true => exact absurd hpx hx
      simp only [List.find?, hx'] at h
      obtain ⟨pre, post, hl, hpre, hpa⟩ := find?_first_split p xs a h
      refine ⟨x :: pre, post, by simp [hl], ?_, hpa⟩
      intro b hb
      rcases List.mem_cons.mp hb with hbx | hbpre
      · exact hbx ▸ hx'
      · exact hpre b hbpre

theorem loadRulesFrom_append_fail (svn_list : String → List String)
    (bad : RuleValue) (e : PyError)
    (hbad : _create_control_from_config svn_list bad = Except.error e) :
    ∀ (good rest : List RuleValue) (i : Nat) (m : SvnCheckoutManager),
      (∀ r ∈ good,
        (okPart (_create_control_from_config svn_list r)).isSome = true) →
      loadRulesFrom svn_list i m (good ++ bad :: rest) =
        (⟨m.controls ++ good.filterMap
            fun r => okPart (_create_control_from_config svn_list r)⟩,
         some (PyError.wrappedAtIndex (i + good.length + 1) e))
  | [], rest, i, m, _ => by
    simp [loadRulesFrom, hbad]
  | r :: gs, rest, i, m, hgood => by
    have hr := hgood r (List.mem_cons_self r gs)
    cases hc : _create_control_from_config svn_list r with
    | error e' => simp [okPart, hc] at hr
    | ok c =>
      have ih := loadRulesFrom_append_fail svn_list bad e hbad gs rest (i + 1)
        (m.appendControl c) (fun r' hr' => hgood r' (List.mem_cons_of_mem r hr'))
      have harith : i + 1 + gs.length + 1 = i + (gs.length + 1) + 1 := by omega
      simp only [List.cons_append, loadRulesFrom, hc, List.length_cons,
        List.append_eq]
      rw [ih, harith]
      simp [SvnCheckoutManager.appendControl, List.filterMap_cons, okPart, hc]

/-! The claim theorems. -/

/-- Claim C1.  The claim states that for every export rule record containing
`type`, `name`, `target_path` and `repository_url`, the factory succeeds and
returns a control carrying the rule's name, visible through the manager's
name operations.  In the code this is impossible: `SvnExportControl.__init__`
declares no `name` parameter and stores no `name` attribute, while
`_create_control_from_config` invokes the constructor with the four
positional arguments `(name, repository_url, target_path, force_overwrite)`,
so every export build raises `TypeError`; and even an export control built
directly is invisible to `get_control_names` / `has_control_name`, which
test `hasattr(control, 'name')`. -/
theorem c1_export_build_raises :
    _create_control_from_config (fun _ => [])
        (RuleValue.dict ⟨some "export", some "snap", some "/tmp/t",
          some "http://svn/x", none, none⟩) =
      Except.error PyError.typeError ∧
    (SvnCheckoutManager.mk
        [Control.export_ ⟨"http://svn/x", "/tmp/t", false⟩]).has_control_name
        "snap" = false ∧
    (SvnCheckoutManager.mk
        [Control.export_ ⟨"http://svn/x", "/tmp/t", false⟩]).get_control_names
      = [] := by
  refine ⟨rfl, rfl, rfl⟩

/-- Claim C2: `SvnCheckoutControl.update` follows the three-state machine on
the target path.  Target absent: parent directories are created when missing,
checkout is invoked exactly once, update never.  Target an existing working
copy: update exactly once, checkout never, no error.  Target exists but is
not a working copy: the not-working-copy error is raised with no effect
performed at all. -/
theorem c2_tracked_reconcile_state_machine (c : SvnCheckoutControl)
    (fs : FsView) :
    (fs.targetExists = false →
      (c.update fs).error? = none ∧
      (c.update fs).effects.count
          (Effect.svnCheckout c.repository_url c.target_path) = 1 ∧
      (∀ p, Effect.svnUpdate p ∉ (c.update fs).effects) ∧
      (fs.parentIsSelf = false → fs.parentExists = false →
        Effect.mkdirParentsOf c.target_path ∈ (c.update fs).effects)) ∧
    (fs.targetExists = true → fs.isWorkingCopy = true →
      (c.update fs).error? = none ∧
      (c.update fs).effects.count (Effect.svnUpdate c.target_path) = 1 ∧
      (∀ u p, Effect.svnCheckout u p ∉ (c.update fs).effects)) ∧
    (fs.targetExists = true → fs.isWorkingCopy = false →
      c.update fs = ⟨[], some (PyError.notWorkingCopy c.target_path)⟩) := by
  obtain ⟨te, wc, pe, ps⟩ := fs
  refine ⟨?_, ?_, ?_⟩
  · rintro rfl
    by_cases hps : ps = false <;> by_cases hpe : pe = false <;>
      simp_all [SvnCheckoutControl.update]
  · rintro rfl rfl
    simp [SvnCheckoutControl.update]
  · rintro rfl rfl
    simp [SvnCheckoutControl.update]

/-- Closed instance of claim C2's theorem: a control whose target is absent
(with absent parent) checks out exactly once, and one whose target exists as
a non-working-copy raises without mutating. -/
theorem c2_tracked_reconcile_state_machine_witness :
    ((SvnCheckoutControl.mk "n" "u" "t").update
        ⟨false, false, false, false⟩).effects.count
        (Effect.svnCheckout "u" "t") = 1 ∧
    (SvnCheckoutControl.mk "n" "u" "t").update ⟨true, false, true, false⟩ =
      ⟨[], some (PyError.notWorkingCopy "t")⟩ := by
  constructor
  · exact ((c2_tracked_reconcile_state_machine
      (SvnCheckoutControl.mk "n" "u" "t") ⟨false, false, false, false⟩).1
        rfl).2.1
  · exact (c2_tracked_reconcile_state_machine
      (SvnCheckoutControl.mk "n" "u" "t") ⟨true, false, true, false⟩).2.2
        rfl rfl

/-- Claim C3: on a non-empty control list, `SvnCheckoutManager.update` runs
every control in insertion order with no early stop (its effect trace is the
concatenation, in order, of every control's effects), per-control failures
are caught rather than propagated individually, and when at least one
failure occurred the raised aggregate carries the success count, the failure
count (the attempted total being their sum, equal to the number of controls)
and the first failure in insertion order as representative cause. -/
theorem c3_update_aggregation (run : Control → RunResult)
    (m : SvnCheckoutManager) (hne : m.controls ≠ []) :
    ((m.update run).2.effects = m.controls.flatMap fun c => (run c).effects) ∧
    (runFailures run m.controls = [] → (m.update run).2.error? = none) ∧
    (∀ c e rest, runFailures run m.controls = (c, e) :: rest →
      (m.update run).2.error? =
        some (PyError.aggregate (runSuccessCount run m.controls)
          (runFailures run m.controls).length e)) ∧
    runSuccessCount run m.controls + (runFailures run m.controls).length =
      m.controls.length ∧
    (∀ e', (m.update run).2.error? = some e' →
      ∃ s f fe, e' = PyError.aggregate s f fe) := by
  have hiso : m.controls.isEmpty = false := by
    cases hm : m.controls with
    | nil => exact absurd hm hne
    | cons a l => rfl
  have hgo := updateGo_spec run m.controls
  simp only [SvnCheckoutManager.update, hiso, Bool.false_eq_true, if_neg,
    not_false_eq_true, hgo]
  cases hf : runFailures run m.controls with
  | nil =>
    refine ⟨rfl, fun _ => rfl, ?_, ?_, ?_⟩
    · intro c e rest hcontra
      exact absurd hcontra (by simp)
    · have := success_failure_split run m.controls
      rw [hf] at this
      simpa [hf] using this
    · intro e' he'
      exact absurd he' (by simp)
  | cons p ps =>
    obtain ⟨c0, e0⟩ := p
    refine ⟨rfl, fun hcontra => absurd hcontra (by simp), ?_, ?_, ?_⟩
    · intro c e rest hce
      have : c0 = c ∧ e0 = e := by
        have h1 := hce
        rw [List.cons.injEq] at h1
        exact ⟨(Prod.mk.injEq _ _ _ _ ▸ h1.1).1, (Prod.mk.injEq _ _ _ _ ▸ h1.1).2⟩
      simp [this.2]
    · have := success_failure_split run m.controls
      rw [hf] at this
      simpa [hf] using this
    · intro e' he'
      refine ⟨runSuccessCount run m.controls, (runFailures run m.controls).length,
        e0, ?_⟩
      simpa [hf] using he'.symm

/-- Closed instance of claim C3's theorem: three controls where the second
fails; all three effects appear in order, `successful = 2`, `failed = 1`
(so three were attempted) and the representative cause is the second
control's error. -/
theorem c3_update_aggregation_witness :
    ((SvnCheckoutManager.mk
        [Control.checkout ⟨"a", "ua", "ta"⟩, Control.checkout ⟨"b", "ub", "tb"⟩,
         Control.checkout ⟨"c", "uc", "tc"⟩]).update failSecondRun).2 =
      ⟨[Effect.svnUpdate "ta", Effect.svnUpdate "tc"],
        some (PyError.aggregate 2 1 PyError.executionError)⟩ := by
  have h := c3_update_aggregation failSecondRun
    (SvnCheckoutManager.mk
      [Control.checkout ⟨"a", "ua", "ta"⟩, Control.checkout ⟨"b", "ub", "tb"⟩,
       Control.checkout ⟨"c", "uc", "tc"⟩])
    (List.cons_ne_nil _ _)
  have heff := h.1
  have herr := h.2.2.1 (Control.checkout ⟨"b", "ub", "tb"⟩)
    PyError.executionError [] (by decide)
  have hfl : (runFailures failSecondRun
      [Control.checkout ⟨"a", "ua", "ta"⟩, Control.checkout ⟨"b", "ub", "tb"⟩,
       Control.checkout ⟨"c", "uc", "tc"⟩]).length = 1 := by decide
  have hsc : runSuccessCount failSecondRun
      [Control.checkout ⟨"a", "ua", "ta"⟩, Control.checkout ⟨"b", "ub", "tb"⟩,
       Control.checkout ⟨"c", "uc", "tc"⟩] = 2 := by decide
  rw [hfl, hsc] at herr
  have heff' : ((SvnCheckoutManager.mk
      [Control.checkout ⟨"a", "ua", "ta"⟩, Control.checkout ⟨"b", "ub", "tb"⟩,
       Control.checkout ⟨"c", "uc", "tc"⟩]).update failSecondRun).2.effects =
      [Effect.svnUpdate "ta", Effect.svnUpdate "tc"] := by
    rw [heff]; decide
  cases hres : ((SvnCheckoutManager.mk
      [Control.checkout ⟨"a", "ua", "ta"⟩, Control.checkout ⟨"b", "ub", "tb"⟩,
       Control.checkout ⟨"c", "uc", "tc"⟩]).update failSecondRun).2 with
  | mk effs err =>
    rw [hres] at heff' herr
    simp only at heff' herr
    rw [heff', herr]

/-- Claim C4: for an export rule supplying `parent_url` and no truthy
`repository_url`, the factory consults the listing of `parent_url`; an empty
listing is a configuration error; a non-empty listing resolves to its last
element exactly as returned, with trailing slashes stripped, joined to
`parent_url` with a separator inserted only when `parent_url` does not
already end in one — in particular the listing `["a/", "b/", "c/"]`
resolves to a location ending in `/c`. -/
theorem c4_parent_url_resolution (svn_list : String → List String)
    (r : RuleRecord) (parent_url : String)
    (htype : getTruthy r.type? = some "export")
    (hname : ∃ n, getTruthy r.name? = some n)
    (hpath : ∃ p, getTruthy r.target_path? = some p)
    (hrepo : getTruthy r.repository_url? = none)
    (hparent : r.parent_url? = some parent_url) :
    (svn_list parent_url = [] →
      _create_control_from_config svn_list (RuleValue.dict r) =
        Except.error (PyError.emptyParentListing parent_url)) ∧
    (∀ ds d, ds.getLast? = some d →
      resolveExportUrl parent_url ds =
        some (if endsWithSlash parent_url then parent_url ++ rstripSlash d
              else parent_url ++ "/" ++ rstripSlash d)) ∧
    resolveExportUrl parent_url ["a/", "b/", "c/"] =
      some (if endsWithSlash parent_url then parent_url ++ "c"
            else parent_url ++ "/" ++ "c") := by
  obtain ⟨n, hn⟩ := hname
  obtain ⟨p, hp⟩ := hpath
  refine ⟨?_, ?_, ?_⟩
  · intro hempty
    simp [_create_control_from_config, htype, hn, hp, hrepo, hparent, hempty,
      resolveExportUrl]
  · intro ds d hd
    simp [resolveExportUrl, hd]
  · have hlast : (["a/", "b/", "c/"] : List String).getLast? = some "c/" := rfl
    simp only [resolveExportUrl, hlast]
    rw [show rstripSlash "c/" = "c" from rfl]

/-- Closed instance of claim C4's theorem: the empty listing fails the
build with the configuration error, and `["a/", "b/", "c/"]` under parent
`"http://p"` resolves to `"http://p/c"`. -/
theorem c4_parent_url_resolution_witness :
    _create_control_from_config (fun _ => [])
        (RuleValue.dict ⟨some "export", some "snap", some "/t", none,
          some "http://p", none⟩) =
      Except.error (PyError.emptyParentListing "http://p") ∧
    resolveExportUrl "http://p" ["a/", "b/", "c/"] = some "http://p/c" := by
  have h := c4_parent_url_resolution (fun _ => [])
    ⟨some "export", some "snap", some "/t", none, some "http://p", none⟩
    "http://p" rfl ⟨"snap", rfl⟩ ⟨"/t", rfl⟩ rfl rfl
  refine ⟨h.1 rfl, ?_⟩
  rw [h.2.2]
  decide

/-- Claim C5: a snapshot control with `force_overwrite = false` whose target
exists skips entirely — no effect at all (hence no export and no chmod) and
no error. -/
theorem c5_snapshot_skip (c : SvnExportControl) (fs : FsView)
    (entries : List FileEntry) (hex : fs.targetExists = true)
    (hf : c.force_overwrite = false) :
    c.update fs entries = ⟨[], none⟩ ∧
    (∀ u t f, Effect.svnExport u t f ∉ (c.update fs entries).effects) ∧
    (∀ p, Effect.chmod p ∉ (c.update fs entries).effects) := by
  have h : c.update fs entries = ⟨[], none⟩ := by
    simp [SvnExportControl.update, hex, hf]
  refine ⟨h, ?_, ?_⟩
  · intro u t f
    rw [h]
    simp
  · intro p
    rw [h]
    simp

/-- Closed instance of claim C5's theorem. -/
theorem c5_snapshot_skip_witness :
    (SvnExportControl.mk "u" "t" false).update ⟨true, false, true, false⟩
        [⟨"f1", true, false⟩] = ⟨[], none⟩ :=
  (c5_snapshot_skip (SvnExportControl.mk "u" "t" false)
    ⟨true, false, true, false⟩ [⟨"f1", true, false⟩] rfl rfl).1

/-- Claim C6: whenever a snapshot reconciliation exports (target absent, or
present with `force_overwrite`), the export effect is immediately followed
by the read-only pass over the walked entries; that pass attempts every
regular file — a file whose chmod raises is logged and skipped, and every
other regular file is still set read-only regardless of the failures around
it. -/
theorem c6_export_readonly_pass (c : SvnExportControl) (fs : FsView)
    (entries : List FileEntry)
    (h : fs.targetExists = false ∨ c.force_overwrite = true) :
    (∃ pre, (c.update fs entries).effects =
      pre ++ Effect.svnExport c.repository_url c.target_path c.force_overwrite ::
        set_readonly entries) ∧
    (∀ e ∈ entries, e.isFile = true → e.chmodRaises = false →
      Effect.chmod e.path ∈ set_readonly entries) ∧
    (∀ e ∈ entries, e.isFile = true → e.chmodRaises = true →
      Effect.chmodFailedLogged e.path ∈ set_readonly entries) := by
  refine ⟨?_, ?_, ?_⟩
  · cases hex : fs.targetExists with
    | false =>
      refine ⟨if fs.parentIsSelf = false ∧ fs.parentExists = false then
        [Effect.mkdirParentsOf c.target_path] else [], ?_⟩
      simp [SvnExportControl.update, hex]
    | true =>
      have hf : c.force_overwrite = true := by
        rcases h with h | h
        · exact absurd hex (h ▸ Bool.false_ne_true)
        · exact h
      refine ⟨[], ?_⟩
      simp [SvnExportControl.update, hex, hf]
  · intro e he hfile hraise
    exact List.mem_flatMap.mpr ⟨e, he, by simp [hfile, hraise]⟩
  · intro e he hfile hraise
    exact List.mem_flatMap.mpr ⟨e, he, by simp [hfile, hraise]⟩

/-- Closed instance of claim C6's theorem: an export over three walked
entries where the first file's chmod fails; the export effect is followed by
the read-only pass, the failing file is logged, and the second file is still
made read-only. -/
theorem c6_export_readonly_pass_witness :
    ((SvnExportControl.mk "u" "t" true).update ⟨true, false, true, false⟩
        [⟨"f1", true, true⟩, ⟨"f2", true, false⟩, ⟨"d", false, false⟩]).effects =
      [Effect.svnExport "u" "t" true, Effect.chmodFailedLogged "f1",
       Effect.chmod "f2"] ∧
    Effect.chmod "f2" ∈ set_readonly
      [⟨"f1", true, true⟩, ⟨"f2", true, false⟩, ⟨"d", false, false⟩] ∧
    Effect.chmodFailedLogged "f1" ∈ set_readonly
      [⟨"f1", true, true⟩, ⟨"f2", true, false⟩, ⟨"d", false, false⟩] := by
  have h := c6_export_readonly_pass (SvnExportControl.mk "u" "t" true)
    ⟨true, false, true, false⟩
    [⟨"f1", true, true⟩, ⟨"f2", true, false⟩, ⟨"d", false, false⟩]
    (Or.inr rfl)
  refine ⟨by decide, ?_, ?_⟩
  · exact h.2.1 ⟨"f2", true, false⟩ (by decide) rfl rfl
  · exact h.2.2 ⟨"f1", true, true⟩ (by decide) rfl rfl

/-- Claim C7: `update_by_name` looks up the first control, in insertion
order, whose `name` attribute equals the argument; with no match it raises
the not-found error having performed no effect; with a match it runs exactly
that control's `update`, passing a success through unchanged and re-raising
a failure wrapped with context naming the control. -/
theorem c7_update_by_name (run : Control → RunResult)
    (m : SvnCheckoutManager) (name : String) :
    (m.get_control_by_name name = none →
      m.update_by_name run name = (m, ⟨[], some (PyError.notFound name)⟩)) ∧
    (∀ c, m.get_control_by_name name = some c →
      (∃ pre post, m.controls = pre ++ c :: post ∧
        (∀ b ∈ pre, (b.hasNameAttr && (b.getName == some name)) = false) ∧
        c.getName = some name) ∧
      ((run c).error? = none → (m.update_by_name run name).2 = run c) ∧
      (∀ e, (run c).error? = some e →
        (m.update_by_name run name).2 =
          ⟨(run c).effects, some (PyError.wrappedByName name e)⟩)) := by
  constructor
  · intro hnone
    simp [SvnCheckoutManager.update_by_name, hnone]
  · intro c hc
    refine ⟨?_, ?_, ?_⟩
    · obtain ⟨pre, post, hl, hpre, hpa⟩ := find?_first_split _ _ _ hc
      have hname : c.getName = some name := by
        have hand := Bool.and_eq_true_iff.mp hpa
        exact beq_iff_eq.mp hand.2
      exact ⟨pre, post, hl, fun b hb => hpre b hb, hname⟩
    · intro hok
      cases hr : run c with
      | mk effs err =>
        rw [hr] at hok
        simp only at hok
        subst hok
        simp [SvnCheckoutManager.update_by_name, hc, hr]
    · intro e herr
      cases hr : run c with
      | mk effs err =>
        rw [hr] at herr
        simp only at herr
        subst herr
        simp [SvnCheckoutManager.update_by_name, hc, hr]

/-- Closed instance of claim C7's theorem: a manager holding one control not
named `"x"` raises the not-found error with no effects, leaving the manager
unchanged. -/
theorem c7_update_by_name_witness :
    (SvnCheckoutManager.mk [Control.checkout ⟨"a", "u", "t"⟩]).update_by_name
        (fun _ => ⟨[], none⟩) "x" =
      (SvnCheckoutManager.mk [Control.checkout ⟨"a", "u", "t"⟩],
        ⟨[], some (PyError.notFound "x")⟩) :=
  (c7_update_by_name (fun _ => ⟨[], none⟩)
    (SvnCheckoutManager.mk [Control.checkout ⟨"a", "u", "t"⟩]) "x").1
    (by decide)

/-- Claim C8: `load_from_dict` fails before building any control (the
manager is returned unchanged) when the `controls` key is absent or not a
list; and when the rules before position `k` build successfully and the
rule at 1-based position `k` fails, the raised error wraps the inner error
with `k`. -/
theorem c8_load_validation_and_wrapping (svn_list : String → List String)
    (m : SvnCheckoutManager) :
    SvnCheckoutManager.load_from_dict svn_list m ControlsField.absent =
      (m, some PyError.missingControlsKey) ∧
    SvnCheckoutManager.load_from_dict svn_list m ControlsField.notAList =
      (m, some PyError.controlsNotAList) ∧
    (∀ good bad rest e,
      (∀ r ∈ good,
        (okPart (_create_control_from_config svn_list r)).isSome = true) →
      _create_control_from_config svn_list bad = Except.error e →
      (SvnCheckoutManager.load_from_dict svn_list m
          (ControlsField.list (good ++ bad :: rest))).2 =
        some (PyError.wrappedAtIndex (good.length + 1) e)) := by
  refine ⟨rfl, rfl, ?_⟩
  intro good bad rest e hgood hbad
  have h := loadRulesFrom_append_fail svn_list bad e hbad good rest 0 m hgood
  simp only [SvnCheckoutManager.load_from_dict, h, Nat.zero_add]

/-- Closed instance of claim C8's theorem: one valid checkout rule followed
by a rule missing its `name`; the error is wrapped with position 2. -/
theorem c8_load_validation_and_wrapping_witness :
    (SvnCheckoutManager.load_from_dict (fun _ => []) ⟨[]⟩
        (ControlsField.list
          [RuleValue.dict ⟨some "checkout", some "a", some "/t", some "u",
            none, none⟩,
           RuleValue.dict ⟨some "checkout", none, some "/t2", some "u2",
            none, none⟩])).2 =
      some (PyError.wrappedAtIndex 2 PyError.missingName) := by
  have h := (c8_load_validation_and_wrapping (fun _ => []) ⟨[]⟩).2.2
    [RuleValue.dict ⟨some "checkout", some "a", some "/t", some "u",
      none, none⟩]
    (RuleValue.dict ⟨some "checkout", none, some "/t2", some "u2",
      none, none⟩)
    [] PyError.missingName (by decide) rfl
  simpa using h

/-- Claim C9: configuration loading is not atomic — when the rules before
the failing one all build, `load_from_dict` raises, yet the controls built
from those earlier rules remain appended to the manager's list (no
rollback). -/
theorem c9_no_rollback (svn_list : String → List String)
    (m : SvnCheckoutManager) (good rest : List RuleValue) (bad : RuleValue)
    (e : PyError)
    (hgood : ∀ r ∈ good,
      (okPart (_create_control_from_config svn_list r)).isSome = true)
    (hbad : _create_control_from_config svn_list bad = Except.error e) :
    (SvnCheckoutManager.load_from_dict svn_list m
        (ControlsField.list (good ++ bad :: rest))).1.controls =
      m.controls ++ good.filterMap
        (fun r => okPart (_create_control_from_config svn_list r)) ∧
    ((SvnCheckoutManager.load_from_dict svn_list m
        (ControlsField.list (good ++ bad :: rest))).2).isSome = true := by
  have h := loadRulesFrom_append_fail svn_list bad e hbad good rest 0 m hgood
  constructor
  · simp only [SvnCheckoutManager.load_from_dict, h]
  · simp only [SvnCheckoutManager.load_from_dict, h, Option.isSome_some]

/-- Closed instance of claim C9's theorem: a valid checkout rule followed by
an invalid rule; loading raises, yet the first rule's control remains in the
manager. -/
theorem c9_no_rollback_witness :
    (SvnCheckoutManager.load_from_dict (fun _ => []) ⟨[]⟩
        (ControlsField.list
          [RuleValue.dict ⟨some "checkout", some "a", some "/t", some "u",
            none, none⟩,
           RuleValue.dict ⟨some "checkout", none, some "/t2", some "u2",
            none, none⟩])).1.controls =
      [Control.checkout ⟨"a", "u", "/t"⟩] := by
  have h := (c9_no_rollback (fun _ => []) ⟨[]⟩
    [RuleValue.dict ⟨some "checkout", some "a", some "/t", some "u",
      none, none⟩]
    []
    (RuleValue.dict ⟨some "checkout", none, some "/t2", some "u2",
      none, none⟩)
    PyError.missingName (by decide) rfl).1
  simpa using h

/-- Claim C10: `update` and `update_by_name` never change the manager's
control sequence — the manager they return is the one they were given, so
`count` and `get_control_names` are preserved — while `appendControl`
appends exactly one control at the end and `clear` empties the list. -/
theorem c10_frame (run : Control → RunResult) (m : SvnCheckoutManager)
    (name : String) (c : Control) :
    (m.update run).1 = m ∧
    (m.update_by_name run name).1 = m ∧
    (m.update run).1.count = m.count ∧
    (m.update run).1.get_control_names = m.get_control_names ∧
    (m.update_by_name run name).1.count = m.count ∧
    (m.update_by_name run name).1.get_control_names = m.get_control_names ∧
    (m.appendControl c).controls = m.controls ++ [c] ∧
    (SvnCheckoutManager.clear m).controls = [] := by
  have h1 : (m.update run).1 = m := rfl
  have h2 : (m.update_by_name run name).1 = m := rfl
  exact ⟨h1, h2, by rw [h1], by rw [h1], by rw [h2], by rw [h2], rfl, rfl⟩

end SvnCmdTool
